import Mathlib

/-!
Verification development for the trading-agent repository.

The Python sources are shallowly embedded:
  * prices, quantities and timestamps (Python floats) are modelled as `ℚ`;
  * the Alpaca brokerage SDK is modelled as an oracle (`Broker`) giving the
    responses of the four broker calls used by the code; every broker call the
    engine performs is recorded in a `List BrokerCall` trace;
  * Python exceptions that escape a function are modelled explicitly
    (`ExecOutcome.raised`, `CycleError`); a Python local variable that may be
    unbound (`order` in the trader main loop) is modelled as an `Option`.
-/

namespace Trading

/-! ### Data model (from src/tradingModule.py) -/

inductive Side where
  | buy
  | sell
deriving DecidableEq, Repr

inductive TimeInForce where
  | day
deriving DecidableEq, Repr

/-- A broker-side open order, as mirrored by `trading_client.get_orders`. -/
structure OpenOrder where
  id : ℕ
  symbol : String
  side : Side
  limit_price : ℚ
  qty : ℚ
  time_in_force : TimeInForce
deriving DecidableEq, Repr

/-- The `LimitOrderRequest` built in `execute_trade` (tradingModule.py lines 61-76). -/
structure OrderReq where
  symbol : String
  limit_price : ℚ
  qty : ℚ
  side : Side
  time_in_force : TimeInForce
deriving DecidableEq, Repr

/-- A broker position, as returned by `trading_client.get_open_position`. -/
structure Position where
  symbol : String
  qty : ℚ
deriving DecidableEq, Repr

/-- Outcome of the position query (tradingModule.py lines 51-58): either a
position is found, or the "position does not exist" signal is recognised,
or some other error occurs. -/
inductive PosResult where
  | found (p : Position)
  | notExist
  | err
deriving DecidableEq, Repr

/-- Outcome of the open-orders query (tradingModule.py lines 83-87). -/
inductive OrdersResult where
  | ok (orders : List OpenOrder)
  | err
deriving DecidableEq, Repr

/-- Oracle for one reconciliation cycle's broker responses. -/
structure Broker where
  posResult : PosResult
  ordersResult : OrdersResult
  cancelOk : ℕ → Bool
  submitResult : Option OpenOrder

/-- The broker calls the engine can issue, recorded in order. -/
inductive BrokerCall where
  | getPosition
  | getOrders
  | cancel (id : ℕ)
  | submit (req : OrderReq)
deriving DecidableEq, Repr

/-- How `execute_trade` finishes: return `None`, return the submitted order,
or let an exception (UnboundLocalError) escape to the caller. -/
inductive ExecOutcome where
  | retNone
  | retOrder (o : OpenOrder)
  | raised
deriving DecidableEq, Repr

/-! ### execute_trade (tradingModule.py lines 49-121) -/

/-- Python `round(x, 2)`: round to two decimal places.  (Python uses
round-half-to-even on binary floats; the claims never exercise half-way
cases, so the rounding of `ℚ` suffices.) -/
def round2 (x : ℚ) : ℚ := ((round (x * 100) : ℤ) : ℚ) / 100

/-- The position value held in the Python local `position` after the
query's try/except (lines 51-58), given a non-`err` query outcome. -/
def posOf : PosResult → Option Position
  | PosResult.found p => some p
  | _ => none

/-- The `order_req` local of `execute_trade` (lines 59-76).  `none` models the
Python variable being left unbound (neither branch taken). -/
def mkOrderReq (ticker : String) (position : Option Position)
    (buy_price sell_price : Option ℚ) (buy_quantity : ℚ) : Option OrderReq :=
  match position, buy_price with
  | none, some bp =>
    some { symbol := ticker, limit_price := bp, qty := buy_quantity,
           side := Side.buy, time_in_force := TimeInForce.day }
  | none, none => none
  | some p, _ =>
    match sell_price with
    | some sp =>
      some { symbol := ticker, limit_price := sp, qty := p.qty,
             side := Side.sell, time_in_force := TimeInForce.day }
    | none => none

/-- The field-by-field difference test of lines 102-105. -/
def orderDiffers (req : OrderReq) (o : OpenOrder) : Bool :=
  decide (req.side ≠ o.side)
    || decide (round2 req.limit_price ≠ round2 o.limit_price)
    || decide (round2 req.qty ≠ round2 o.qty)
    || decide (req.time_in_force ≠ o.time_in_force)

/-- The cancellation loop of lines 91-97: cancel each order in turn and
return early (flag `false`) at the first cancel failure. -/
def cancelAll (b : Broker) : List OpenOrder → List BrokerCall × Bool
  | [] => ([], true)
  | o :: rest =>
    if b.cancelOk o.id then
      let r := cancelAll b rest
      (BrokerCall.cancel o.id :: r.1, r.2)
    else ([BrokerCall.cancel o.id], false)

/-- Lines 116-121: `submit_order(order_req)` inside try/except, then
`return new_order`.  If `order_req` is unbound, evaluating it raises before
any broker call; if the submit call fails, `new_order` stays unbound and the
final `return new_order` raises.  In both cases an exception escapes. -/
def submitPhase (b : Broker) (order_req : Option OrderReq) :
    List BrokerCall × ExecOutcome :=
  match order_req with
  | none => ([], ExecOutcome.raised)
  | some req =>
    match b.submitResult with
    | some o => ([BrokerCall.submit req], ExecOutcome.retOrder o)
    | none => ([BrokerCall.submit req], ExecOutcome.raised)

/-- The function `execute_trade` (tradingModule.py lines 49-121), returning the trace of
broker calls together with how the function finished. -/
def execute_trade (b : Broker) (ticker : String)
    (buy_price sell_price : Option ℚ) (buy_quantity : ℚ) :
    List BrokerCall × ExecOutcome :=
  if b.posResult = PosResult.err then
    ([BrokerCall.getPosition], ExecOutcome.retNone)
  else
    let order_req := mkOrderReq ticker (posOf b.posResult) buy_price sell_price buy_quantity
    match b.ordersResult with
    | OrdersResult.err =>
      ([BrokerCall.getPosition, BrokerCall.getOrders], ExecOutcome.retNone)
    | OrdersResult.ok orders =>
      match orders with
      | [] =>
        let r := submitPhase b order_req
        ([BrokerCall.getPosition, BrokerCall.getOrders] ++ r.1, r.2)
      | [order] =>
        match order_req with
        | none =>
          ([BrokerCall.getPosition, BrokerCall.getOrders], ExecOutcome.raised)
        | some req =>
          if orderDiffers req order then
            if b.cancelOk order.id then
              let r := submitPhase b order_req
              ([BrokerCall.getPosition, BrokerCall.getOrders,
                BrokerCall.cancel order.id] ++ r.1, r.2)
            else
              ([BrokerCall.getPosition, BrokerCall.getOrders,
                BrokerCall.cancel order.id], ExecOutcome.retNone)
          else
            ([BrokerCall.getPosition, BrokerCall.getOrders], ExecOutcome.retNone)
      | _ =>
        let r := cancelAll b orders
        if r.2 then
          let s := submitPhase b order_req
          ([BrokerCall.getPosition, BrokerCall.getOrders] ++ r.1 ++ s.1, s.2)
        else
          ([BrokerCall.getPosition, BrokerCall.getOrders] ++ r.1,
           ExecOutcome.retNone)

/-! ### Trader main loop (tradingModule.py lines 123-163) -/

/-- A published price tick: the JSON envelope
`{'symbol': ..., 'price': ..., 'time': ...}` of dataModule.py lines 27-31. -/
structure Tick where
  symbol : String
  price : ℚ
  time : ℚ
deriving DecidableEq, Repr

/-- Value of the Python local `order` once it has been assigned:
`None` or an `Order` instance. -/
inductive OrderVal where
  | noneVal
  | orderVal (o : OpenOrder)
deriving DecidableEq, Repr

/-- Per-cycle carried state of the trader loop: `last_buy`, `last_sell`,
`last_qty` (line 124) and the binding of the local `order` (line 149),
`none` meaning the variable is still unbound. -/
structure TraderState where
  last_buy : Option ℚ
  last_sell : Option ℚ
  last_qty : Option ℚ
  orderVar : Option OrderVal
deriving DecidableEq, Repr

/-- Initial loop state, line 124: `last_buy, last_sell, last_qty = None, None, None`
with the local `order` not yet bound. -/
def initState : TraderState :=
  { last_buy := none, last_sell := none, last_qty := none, orderVar := none }

/-- Exceptions that can escape one iteration of the trader's while-loop. -/
inductive CycleError where
  | keyError
  | tickerMismatch
  | nameError
deriving DecidableEq, Repr

/-- Result of one loop iteration: continue with a new state, or an exception
escapes the loop (killing the process) with the state at that moment. -/
inductive CycleResult where
  | next (s : TraderState) (calls : List BrokerCall)
  | fatal (e : CycleError) (s : TraderState) (calls : List BrokerCall)
deriving DecidableEq, Repr

/-- The trader state carried inside a cycle result. -/
def CycleResult.state : CycleResult → TraderState
  | CycleResult.next s _ => s
  | CycleResult.fatal _ s _ => s

/-- The broker-call trace of a cycle result. -/
def CycleResult.calls : CycleResult → List BrokerCall
  | CycleResult.next _ c => c
  | CycleResult.fatal _ _ c => c

/-- Lines 132-142: compute `buy_price = price - 1.0`, `sell_price = price + 1.0`,
`buy_quantity = 1`, then flatten both prices to `None` when the tick is stale
(`time.time() - last_update > 5`). -/
def compute_intent (price last_update now : ℚ) : Option ℚ × Option ℚ × ℚ :=
  let buy_price : Option ℚ := some (price - 1)
  let sell_price : Option ℚ := some (price + 1)
  let buy_quantity : ℚ := 1
  if now - last_update > 5 then (none, none, buy_quantity)
  else (buy_price, sell_price, buy_quantity)

/-- Lines 153-154: `if isinstance(order, Order)` reads the local `order`;
if it was never assigned this raises `NameError`, which escapes the loop. -/
def finishCycle (s' : TraderState) (calls : List BrokerCall) : CycleResult :=
  match s'.orderVar with
  | none => CycleResult.fatal CycleError.nameError s' calls
  | some _ => CycleResult.next s' calls

/-- One iteration of the trader while-loop (lines 126-154).  The received
snapshot is an association list symbol ↦ tick; `socket.recv_json()[ticker]`
is the unguarded indexing of line 127 (KeyError when absent); line 129-130
raise on a ticker mismatch; lines 143-146 skip identical intents; lines
148-151 catch exceptions from `execute_trade`; line 152 updates the last
intent unconditionally. -/
def trader_cycle (b : Broker) (ticker : String) (snapshot : List (String × Tick))
    (now : ℚ) (s : TraderState) : CycleResult :=
  match snapshot.lookup ticker with
  | none => CycleResult.fatal CycleError.keyError s []
  | some latest =>
    if latest.symbol ≠ ticker then CycleResult.fatal CycleError.tickerMismatch s []
    else
      let intent := compute_intent latest.price latest.time now
      let buy_price := intent.1
      let sell_price := intent.2.1
      let buy_quantity := intent.2.2
      if buy_price = s.last_buy ∧ sell_price = s.last_sell ∧
          some buy_quantity = s.last_qty then
        CycleResult.next s []
      else
        let r := execute_trade b ticker buy_price sell_price buy_quantity
        let orderVar : Option OrderVal :=
          match r.2 with
          | ExecOutcome.retNone => some OrderVal.noneVal
          | ExecOutcome.retOrder o => some (OrderVal.orderVal o)
          | ExecOutcome.raised => s.orderVar
        let s' : TraderState :=
          { last_buy := buy_price, last_sell := sell_price,
            last_qty := some buy_quantity, orderVar := orderVar }
        finishCycle s' r.1

/-- End state of the trader process after consuming a list of cycle inputs. -/
inductive RunResult where
  | alive (s : TraderState)
  | died (e : CycleError) (cleanedUp : Bool)
deriving DecidableEq, Repr

/-- The try/finally around the while-loop (lines 123-163): cycles run until
an exception escapes; the `finally` block then closes the socket and context
(`cleanedUp = true`) and the exception is re-raised, ending the process. -/
def trader_run (ticker : String) :
    TraderState → List (Broker × List (String × Tick) × ℚ) → RunResult
  | s, [] => RunResult.alive s
  | s, (b, snap, now) :: rest =>
    match trader_cycle b ticker snap now s with
    | CycleResult.next s' _ => trader_run ticker s' rest
    | CycleResult.fatal e _ _ => RunResult.died e true

/-! ### Price publisher (dataModule.py lines 9-48) -/

/-- The function `get_realtime_price(i)` (dataModule.py lines 25-31): price `100.0 + i/10`
stamped with the current time. -/
def get_realtime_price (ticker : String) (now : ℚ) (i : ℕ) : Tick :=
  { symbol := ticker, price := 100 + (i : ℚ) / 10, time := now }

/-- The publisher main loop (lines 33-40) run for `n` iterations: the counter
`i` starts at 0 and each iteration increments it *before* publishing
`get_realtime_price(i)`.  Returns the list of broadcast ticks and the final
counter; `times k` is the wall-clock time at the k-th publication. -/
def publish_first (ticker : String) (times : ℕ → ℚ) : ℕ → List Tick × ℕ
  | 0 => ([], 0)
  | n + 1 =>
    let r := publish_first ticker times n
    (r.1 ++ [get_realtime_price ticker (times (r.2 + 1)) (r.2 + 1)], r.2 + 1)

/-! ### Display consumer (dataModule.py lines 102-139) -/

/-- The function `print_realtime_price` (lines 118-125): for each tracked ticker, look the
symbol up with `prices.get(ticker)` and render a line only when present —
absent symbols are skipped silently.  Returns the rendered
(symbol, price, time) lines. -/
def print_realtime_price (tickers : List String)
    (prices : List (String × Tick)) : List (String × ℚ × ℚ) :=
  tickers.filterMap (fun t =>
    match prices.lookup t with
    | some d => some (t, d.price, d.time)
    | none => none)

/-! ### Process orchestrator and port allocator (main.py lines 17-65, 68-132) -/

/-- A child process handle; `started` records whether `process.start()` has
been called on it. `multiprocessing.Process(...)` creates it unstarted. -/
structure ProcessHandle where
  started : Bool
deriving DecidableEq, Repr

/-- The class `ChildrenProcessesData` (main.py lines 17-31). -/
structure CPD where
  next_free_port : ℕ
  max_port : ℕ
  child_processes : List ProcessHandle
deriving DecidableEq, Repr

/-- Every tracked child process is still unstarted. -/
def allUnstarted (cpd : CPD) : Prop :=
  ∀ p ∈ cpd.child_processes, p.started = false

instance (cpd : CPD) : Decidable (allUnstarted cpd) :=
  inferInstanceAs (Decidable (∀ p ∈ cpd.child_processes, p.started = false))

/-- The function `register_process_with_port` (main.py lines 33-65), restricted to the
port-allocation behaviour: when a port is needed and the next free port
exceeds the maximum, raise; otherwise hand out `next_free_port`, increment
it, create the (unstarted) process and append it. -/
def register_process_with_port (need_port : Bool) (cpd : CPD) :
    Except String (CPD × Option ℕ) :=
  if need_port then
    if cpd.next_free_port > cpd.max_port then
      Except.error "No more ports available, exceeded maximum allowed port number."
    else
      Except.ok
        ({ next_free_port := cpd.next_free_port + 1,
           max_port := cpd.max_port,
           child_processes := cpd.child_processes ++ [{ started := false }] },
         some cpd.next_free_port)
  else
    Except.ok
      ({ cpd with child_processes := cpd.child_processes ++ [{ started := false }] },
       none)

/-- The registration phase of `__main__` (main.py lines 68-107): perform the
registrations in order; an allocation failure aborts the phase (the raised
exception propagates), leaving the state as mutated so far.  Returns the
final state, the ports handed out, and whether the phase completed. -/
def registerMany : CPD → List Bool → CPD × List ℕ × Bool
  | cpd, [] => (cpd, [], true)
  | cpd, f :: rest =>
    match register_process_with_port f cpd with
    | Except.error _ => (cpd, [], false)
    | Except.ok (cpd₁, p) =>
      let r := registerMany cpd₁ rest
      (r.1, p.toList ++ r.2.1, r.2.2)

/-- Lines 109-114 of main.py: only after every registration succeeded are the
child processes started. -/
def startAll (cpd : CPD) : CPD :=
  { cpd with child_processes := cpd.child_processes.map (fun _ => { started := true }) }

/-- The orchestration setup: register everything, then start all processes;
if registration failed, the exception propagates before any `start()`. -/
def mainSetup (cpd : CPD) (flags : List Bool) : CPD × Bool :=
  let r := registerMany cpd flags
  if r.2.2 then (startAll r.1, true) else (r.1, false)

/-! ### Concrete brokers used by closed statements -/

/-- A broker with no position, zero open orders and a failing submission. -/
def bSubmitFail : Broker :=
  { posResult := PosResult.notExist,
    ordersResult := OrdersResult.ok [],
    cancelOk := fun _ => true,
    submitResult := none }

/-! ### Helper lemmas -/

theorem finishCycle_state (s' : TraderState) (c : List BrokerCall) :
    (finishCycle s' c).state = s' := by
  unfold finishCycle
  split <;> rfl

/-! ### Claims about the reconciliation engine -/

/-- Claim C4: for every received tick whose timestamp satisfies
`now() - timestamp > 5` seconds, the computed intent has `buy_price = None`
and `sell_price = None`, regardless of the tick's numeric price. -/
theorem stale_intent_flattening (price last_update now : ℚ)
    (h : now - last_update > 5) :
    compute_intent price last_update now = (none, none, 1) := by
  simp [compute_intent, h]

theorem stale_intent_flattening_witness :
    (10 : ℚ) - 0 > 5 ∧ compute_intent 100 0 10 = (none, none, 1) :=
  ⟨by norm_num, stale_intent_flattening 100 0 10 (by norm_num)⟩

/-- Claim C3: for every cycle whose computed `(buy_price, sell_price, quantity)`
equals the previous cycle's stored last intent triple, the engine makes zero
broker calls in that cycle (no position query, no order query, no cancel,
no submit): the cycle is skipped with an empty call trace and an unchanged
state. -/
theorem idempotent_skip (b : Broker) (ticker : String)
    (snap : List (String × Tick)) (now : ℚ) (s : TraderState) (tick : Tick)
    (hlook : snap.lookup ticker = some tick)
    (hsym : tick.symbol = ticker)
    (hb : (compute_intent tick.price tick.time now).1 = s.last_buy)
    (hs : (compute_intent tick.price tick.time now).2.1 = s.last_sell)
    (hq : some (compute_intent tick.price tick.time now).2.2 = s.last_qty) :
    trader_cycle b ticker snap now s = CycleResult.next s [] := by
  unfold trader_cycle
  rw [hlook]
  simp [hsym, hb, hs, hq]

theorem idempotent_skip_witness :
    trader_cycle bSubmitFail "AAPL"
        [("AAPL", { symbol := "AAPL", price := 100, time := 0 })] 0
        { last_buy := some 99, last_sell := some 101, last_qty := some 1,
          orderVar := some OrderVal.noneVal } =
      CycleResult.next
        { last_buy := some 99, last_sell := some 101, last_qty := some 1,
          orderVar := some OrderVal.noneVal } [] :=
  idempotent_skip bSubmitFail "AAPL" _ 0 _ _ rfl rfl
    (by norm_num [compute_intent]) (by norm_num [compute_intent])
    (by norm_num [compute_intent])

/-- Claim C7: for every cycle that passes the idempotence check, the stored
last intent is updated to the just-computed `(buy_price, sell_price, quantity)`
triple in the resulting state, whatever the broker responses were (success,
failure, or an exception escaping `execute_trade`). -/
theorem lastIntent_always_updated (b : Broker) (ticker : String)
    (snap : List (String × Tick)) (now : ℚ) (s : TraderState) (tick : Tick)
    (hlook : snap.lookup ticker = some tick)
    (hsym : tick.symbol = ticker)
    (hne : ¬ ((compute_intent tick.price tick.time now).1 = s.last_buy ∧
              (compute_intent tick.price tick.time now).2.1 = s.last_sell ∧
              some (compute_intent tick.price tick.time now).2.2 = s.last_qty)) :
    (trader_cycle b ticker snap now s).state.last_buy =
        (compute_intent tick.price tick.time now).1 ∧
    (trader_cycle b ticker snap now s).state.last_sell =
        (compute_intent tick.price tick.time now).2.1 ∧
    (trader_cycle b ticker snap now s).state.last_qty =
        some (compute_intent tick.price tick.time now).2.2 := by
  unfold trader_cycle
  rw [hlook]
  simp [hsym, hne, finishCycle_state]

theorem lastIntent_always_updated_witness :
    (trader_cycle bSubmitFail "AAPL"
        [("AAPL", { symbol := "AAPL", price := 100, time := 0 })] 0
        initState).state.last_buy =
      (compute_intent 100 0 0).1 ∧
    (trader_cycle bSubmitFail "AAPL"
        [("AAPL", { symbol := "AAPL", price := 100, time := 0 })] 0
        initState).state.last_sell =
      (compute_intent 100 0 0).2.1 ∧
    (trader_cycle bSubmitFail "AAPL"
        [("AAPL", { symbol := "AAPL", price := 100, time := 0 })] 0
        initState).state.last_qty =
      some (compute_intent 100 0 0).2.2 :=
  lastIntent_always_updated bSubmitFail "AAPL" _ 0 initState
    { symbol := "AAPL", price := 100, time := 0 } rfl rfl
    (by norm_num [compute_intent, initState]; intro h; exact Option.noConfusion h)

/-- Claim C8: for every received snapshot entry whose symbol field differs
from the engine's configured ticker, the cycle raises the ticker-mismatch
error with no broker call, and the trading process terminates (the loop does
not continue), with the channel resources released by the `finally` block. -/
theorem ticker_mismatch_fatal (b : Broker) (ticker : String)
    (snap : List (String × Tick)) (now : ℚ) (s : TraderState) (tick : Tick)
    (rest : List (Broker × List (String × Tick) × ℚ))
    (hlook : snap.lookup ticker = some tick)
    (hsym : tick.symbol ≠ ticker) :
    trader_cycle b ticker snap now s =
      CycleResult.fatal CycleError.tickerMismatch s [] ∧
    trader_run ticker s ((b, snap, now) :: rest) =
      RunResult.died CycleError.tickerMismatch true := by
  have h1 : trader_cycle b ticker snap now s =
      CycleResult.fatal CycleError.tickerMismatch s [] := by
    unfold trader_cycle
    rw [hlook]
    simp [hsym]
  exact ⟨h1, by simp [trader_run, h1]⟩

theorem ticker_mismatch_fatal_witness :
    trader_cycle bSubmitFail "AAPL"
        [("AAPL", { symbol := "GOOGL", price := 100, time := 0 })] 0 initState =
      CycleResult.fatal CycleError.tickerMismatch initState [] ∧
    trader_run "AAPL" initState
        [(bSubmitFail, [("AAPL", { symbol := "GOOGL", price := 100, time := 0 })], 0)] =
      RunResult.died CycleError.tickerMismatch true :=
  ticker_mismatch_fatal bSubmitFail "AAPL" _ 0 initState
    { symbol := "GOOGL", price := 100, time := 0 } [] rfl (by decide)

/-- Claim C10: for every received snapshot containing no entry for the
trader's configured ticker, the unguarded snapshot indexing raises a key
error that terminates the trading process; the display consumer, by
contrast, renders no line for an absent symbol and raises nothing. -/
theorem missing_symbol_key_error (b : Broker) (ticker : String)
    (snap : List (String × Tick)) (now : ℚ) (s : TraderState)
    (rest : List (Broker × List (String × Tick) × ℚ)) (tickers : List String)
    (hlook : snap.lookup ticker = none) :
    trader_cycle b ticker snap now s = CycleResult.fatal CycleError.keyError s [] ∧
    trader_run ticker s ((b, snap, now) :: rest) =
      RunResult.died CycleError.keyError true ∧
    ∀ line ∈ print_realtime_price tickers snap, line.1 ≠ ticker := by
  have h1 : trader_cycle b ticker snap now s =
      CycleResult.fatal CycleError.keyError s [] := by
    unfold trader_cycle
    rw [hlook]
  refine ⟨h1, by simp [trader_run, h1], ?_⟩
  intro line hline
  simp only [print_realtime_price, List.mem_filterMap] at hline
  obtain ⟨t, ht, hmatch⟩ := hline
  intro hcontra
  cases hl : snap.lookup t with
  | none =>
    rw [hl] at hmatch
    exact Option.noConfusion hmatch
  | some d =>
    rw [hl] at hmatch
    have hline' : (t, d.price, d.time) = line := Option.some.inj hmatch
    have ht' : t = ticker := by
      rw [← hline'] at hcontra
      exact hcontra
    rw [ht'] at hl
    rw [hlook] at hl
    exact Option.noConfusion hl

theorem missing_symbol_key_error_witness :
    trader_cycle bSubmitFail "AAPL" [] 0 initState =
      CycleResult.fatal CycleError.keyError initState [] ∧
    trader_run "AAPL" initState [(bSubmitFail, [], 0)] =
      RunResult.died CycleError.keyError true ∧
    ∀ line ∈ print_realtime_price ["AAPL", "GOOGL"] [], line.1 ≠ "AAPL" :=
  missing_symbol_key_error bSubmitFail "AAPL" [] 0 initState [] ["AAPL", "GOOGL"] rfl

/-- Claim C5: with exactly one open order for the symbol, an order equal to
the desired intent on `(side, limit_price rounded to 2dp, qty rounded to 2dp,
time_in_force)` leads to no cancel and no submit; a differing order is
cancelled, and on cancel failure the cycle ends with no submission. -/
theorem single_order_reconciliation (b : Broker) (ticker : String)
    (bp sp : Option ℚ) (q : ℚ) (order : OpenOrder) (req : OrderReq)
    (hpos : ¬ b.posResult = PosResult.err)
    (hord : b.ordersResult = OrdersResult.ok [order])
    (hreq : mkOrderReq ticker (posOf b.posResult) bp sp q = some req) :
    (orderDiffers req order = false →
      execute_trade b ticker bp sp q =
        ([BrokerCall.getPosition, BrokerCall.getOrders], ExecOutcome.retNone)) ∧
    (orderDiffers req order = true →
      BrokerCall.cancel order.id ∈ (execute_trade b ticker bp sp q).1) ∧
    (orderDiffers req order = true → b.cancelOk order.id = false →
      execute_trade b ticker bp sp q =
        ([BrokerCall.getPosition, BrokerCall.getOrders, BrokerCall.cancel order.id],
         ExecOutcome.retNone)) := by
  refine ⟨fun hdiff => ?_, fun hdiff => ?_, fun hdiff hcan => ?_⟩
  · simp [execute_trade, hpos, hord, hreq, hdiff]
  · by_cases hcan : b.cancelOk order.id
    · simp [execute_trade, hpos, hord, hreq, hdiff, hcan]
    · simp [execute_trade, hpos, hord, hreq, hdiff, hcan]
  · simp [execute_trade, hpos, hord, hreq, hdiff, hcan]

/-- Broker holding exactly one open order that equals the desired buy intent. -/
def bOneMatch : Broker :=
  { posResult := PosResult.notExist,
    ordersResult := OrdersResult.ok
      [{ id := 7, symbol := "AAPL", side := Side.buy, limit_price := 99, qty := 1,
         time_in_force := TimeInForce.day }],
    cancelOk := fun _ => true,
    submitResult := none }

/-- The single open order held by `bOneMatch`. -/
def ordMatch : OpenOrder :=
  { id := 7, symbol := "AAPL", side := Side.buy, limit_price := 99, qty := 1,
    time_in_force := TimeInForce.day }

/-- The desired buy intent matching `ordMatch` field by field. -/
def reqMatch : OrderReq :=
  { symbol := "AAPL", limit_price := 99, qty := 1, side := Side.buy,
    time_in_force := TimeInForce.day }

theorem single_order_reconciliation_witness :
    (orderDiffers reqMatch ordMatch = false →
      execute_trade bOneMatch "AAPL" (some 99) (some 101) 1 =
        ([BrokerCall.getPosition, BrokerCall.getOrders], ExecOutcome.retNone)) ∧
    (orderDiffers reqMatch ordMatch = true →
      BrokerCall.cancel ordMatch.id ∈
        (execute_trade bOneMatch "AAPL" (some 99) (some 101) 1).1) ∧
    (orderDiffers reqMatch ordMatch = true → bOneMatch.cancelOk ordMatch.id = false →
      execute_trade bOneMatch "AAPL" (some 99) (some 101) 1 =
        ([BrokerCall.getPosition, BrokerCall.getOrders, BrokerCall.cancel ordMatch.id],
         ExecOutcome.retNone)) :=
  single_order_reconciliation bOneMatch "AAPL" (some 99) (some 101) 1
    ordMatch reqMatch (by simp [bOneMatch]) rfl rfl

/-! ### Claim C1: the multiple-open-orders anomaly -/

theorem submitPhase_some_calls (b : Broker) (req : OrderReq) :
    (submitPhase b (some req)).1 = [BrokerCall.submit req] := by
  unfold submitPhase
  cases b.submitResult <;> rfl

theorem cancelAll_all_ok (b : Broker) (orders : List OpenOrder)
    (h : ∀ o ∈ orders, b.cancelOk o.id = true) :
    cancelAll b orders = (orders.map (fun o => BrokerCall.cancel o.id), true) := by
  induction orders with
  | nil => rfl
  | cons o rest ih =>
    have ho : b.cancelOk o.id = true := h o (List.mem_cons_self o rest)
    have hrest : ∀ o' ∈ rest, b.cancelOk o'.id = true :=
      fun o' h' => h o' (List.mem_cons_of_mem o h')
    simp [cancelAll, ho, ih hrest]

/-- Claim C1 (amended): when the open-orders query returns more than one order
and every cancellation succeeds, the engine cancels every one of them and then
proceeds to the submission step of the same cycle, issuing a submit call for
the desired order request whenever one was formed. -/
theorem anomaly_cancel_all_then_submit (b : Broker) (ticker : String)
    (bp sp : Option ℚ) (q : ℚ) (o₁ o₂ : OpenOrder) (rest : List OpenOrder)
    (req : OrderReq)
    (hpos : ¬ b.posResult = PosResult.err)
    (hord : b.ordersResult = OrdersResult.ok (o₁ :: o₂ :: rest))
    (hcancel : ∀ o ∈ o₁ :: o₂ :: rest, b.cancelOk o.id = true)
    (hreq : mkOrderReq ticker (posOf b.posResult) bp sp q = some req) :
    (∀ o ∈ o₁ :: o₂ :: rest,
        BrokerCall.cancel o.id ∈ (execute_trade b ticker bp sp q).1) ∧
    BrokerCall.submit req ∈ (execute_trade b ticker bp sp q).1 := by
  have hexec : (execute_trade b ticker bp sp q).1 =
      [BrokerCall.getPosition, BrokerCall.getOrders] ++
        (o₁ :: o₂ :: rest).map (fun o => BrokerCall.cancel o.id) ++
        [BrokerCall.submit req] := by
    simp [execute_trade, hpos, hord, hreq, cancelAll_all_ok b _ hcancel,
      submitPhase_some_calls]
  rw [hexec]
  constructor
  · intro o ho
    simp only [List.mem_append, List.mem_map]
    exact Or.inl (Or.inr ⟨o, ho, rfl⟩)
  · simp

/-- First of the two anomalous open orders. -/
def ordAnom1 : OpenOrder :=
  { id := 1, symbol := "AAPL", side := Side.sell, limit_price := 105, qty := 1,
    time_in_force := TimeInForce.day }

/-- Second of the two anomalous open orders. -/
def ordAnom2 : OpenOrder :=
  { id := 2, symbol := "AAPL", side := Side.buy, limit_price := 95, qty := 1,
    time_in_force := TimeInForce.day }

/-- The desired buy order request at limit 99, quantity 1. -/
def reqBuy99 : OrderReq :=
  { symbol := "AAPL", limit_price := 99, qty := 1, side := Side.buy,
    time_in_force := TimeInForce.day }

/-- The broker's record for the order submitted in the anomalous cycle. -/
def ordFill3 : OpenOrder :=
  { id := 3, symbol := "AAPL", side := Side.buy, limit_price := 99, qty := 1,
    time_in_force := TimeInForce.day }

/-- Broker in the anomalous state: two open orders for the symbol, all
cancellations succeed, and submission succeeds. -/
def bAnomaly : Broker :=
  { posResult := PosResult.notExist,
    ordersResult := OrdersResult.ok [ordAnom1, ordAnom2],
    cancelOk := fun _ => true,
    submitResult := some ordFill3 }

theorem anomaly_cancel_all_then_submit_witness :
    (∀ o ∈ ordAnom1 :: ordAnom2 :: [],
        BrokerCall.cancel o.id ∈
          (execute_trade bAnomaly "AAPL" (some 99) (some 101) 1).1) ∧
    BrokerCall.submit reqBuy99 ∈
      (execute_trade bAnomaly "AAPL" (some 99) (some 101) 1).1 :=
  anomaly_cancel_all_then_submit bAnomaly "AAPL" (some 99) (some 101) 1
    ordAnom1 ordAnom2 [] reqBuy99 (by simp [bAnomaly]) rfl
    (by intro o ho; rfl) rfl

/-- Claim C1 counterexample: in a cycle where the broker returns two open
orders for the symbol and both cancellations succeed, the engine nevertheless
issues a submit call in that same cycle (the code falls through from the
cancel-all loop straight into the submission step), contradicting the claim
that no submission occurs. -/
theorem anomaly_submits_counterexample :
    (execute_trade bAnomaly "AAPL" (some 99) (some 101) 1).1 =
      [BrokerCall.getPosition, BrokerCall.getOrders, BrokerCall.cancel 1,
       BrokerCall.cancel 2, BrokerCall.submit reqBuy99] ∧
    BrokerCall.submit reqBuy99 ∈
      (execute_trade bAnomaly "AAPL" (some 99) (some 101) 1).1 := by
  have h : (execute_trade bAnomaly "AAPL" (some 99) (some 101) 1).1 =
      [BrokerCall.getPosition, BrokerCall.getOrders, BrokerCall.cancel 1,
       BrokerCall.cancel 2, BrokerCall.submit reqBuy99] := by
    simp [execute_trade, bAnomaly, cancelAll, submitPhase, mkOrderReq, posOf,
      ordAnom1, ordAnom2, reqBuy99]
  exact ⟨h, by rw [h]; simp⟩

/-! ### Claim C2: error handling of the trader main loop -/

/-- Claim C2 (code bug): on the very first cycle, with a fresh tick, no
position, zero open orders and a failing submission, the exception escaping
`execute_trade` is caught, but the subsequent `isinstance(order, Order)`
check reads the never-assigned local `order`, raising `NameError`: the
trading process dies instead of continuing to the next cycle. -/
theorem first_cycle_submit_failure_crash :
    trader_run "AAPL" initState
      [(bSubmitFail, [("AAPL", { symbol := "AAPL", price := 100, time := 0 })], 0)] =
      RunResult.died CycleError.nameError true := by
  have hcycle : trader_cycle bSubmitFail "AAPL"
      [("AAPL", { symbol := "AAPL", price := 100, time := 0 })] 0 initState =
      CycleResult.fatal CycleError.nameError
        { last_buy := some 99, last_sell := some 101, last_qty := some 1,
          orderVar := none }
        [BrokerCall.getPosition, BrokerCall.getOrders, BrokerCall.submit reqBuy99] := by
    unfold trader_cycle
    norm_num [compute_intent, initState, execute_trade, bSubmitFail, mkOrderReq,
      posOf, submitPhase, finishCycle, reqBuy99]
    simp
  simp [trader_run, hcycle]

/-! ### Claim C9: the published price sequence -/

theorem publish_first_counter (ticker : String) (times : ℕ → ℚ) :
    ∀ n, (publish_first ticker times n).2 = n := by
  intro n
  induction n with
  | zero => rfl
  | succ k ih => simp [publish_first, ih]

theorem publish_first_list (ticker : String) (times : ℕ → ℚ) :
    ∀ n, (publish_first ticker times n).1 =
      (List.range n).map (fun k => get_realtime_price ticker (times (k + 1)) (k + 1)) := by
  intro n
  induction n with
  | zero => rfl
  | succ k ih =>
    simp [publish_first, ih, List.range_succ, publish_first_counter]

/-- Claim C9 (amended): for every tick index `i ≥ 1`, the i-th tick broadcast
by the publisher has price `100.0 + i/10`; hence the published price sequence
starts at `100.1` for the first tick (the counter is incremented before the
first publish, so `100.0` is never broadcast) and increases by `0.1` per
tick: `100.1, 100.2, 100.3, ...`. -/
theorem published_price_formula (ticker : String) (times : ℕ → ℚ) (n i : ℕ)
    (h1 : 1 ≤ i) (h2 : i ≤ n) :
    (publish_first ticker times n).1.get? (i - 1) =
      some { symbol := ticker, price := 100 + (i : ℚ) / 10, time := times i } := by
  rw [publish_first_list]
  rw [List.get?_eq_getElem?]
  rw [List.getElem?_map]
  have hlt : i - 1 < n := by omega
  rw [List.getElem?_range hlt]
  have hi : i - 1 + 1 = i := Nat.succ_pred_eq_of_pos h1
  have hcast : ((i - 1 : ℕ) : ℚ) + 1 = (i : ℚ) := by exact_mod_cast hi
  simp [get_realtime_price, hi, hcast]

theorem published_price_formula_witness :
    1 ≤ 1 ∧ 1 ≤ 3 ∧
    (publish_first "AAPL" (fun _ => (0 : ℚ)) 3).1.get? (1 - 1) =
      some { symbol := "AAPL", price := 100 + ((1 : ℕ) : ℚ) / 10, time := 0 } :=
  ⟨le_rfl, by norm_num,
    published_price_formula "AAPL" (fun _ => (0 : ℚ)) 3 1 le_rfl (by norm_num)⟩

/-- Claim C9 counterexample: the first tick the publisher broadcasts has
price `100.1`, not `100.0` — the counter is incremented before the first
publication, so the price `100.0` never appears in the broadcast sequence. -/
theorem first_tick_price_not_100 :
    (publish_first "AAPL" (fun _ => (0 : ℚ)) 1).1 =
      [{ symbol := "AAPL", price := 100 + 1 / 10, time := 0 }] ∧
    (100 + 1 / 10 : ℚ) ≠ 100 := by
  constructor
  · simp [publish_first, get_realtime_price]
  · norm_num

/-! ### Claim C6: port allocation bounds -/

/-- The allocator state after a successful port-needing registration. -/
def pushPort (cpd : CPD) : CPD :=
  { next_free_port := cpd.next_free_port + 1, max_port := cpd.max_port,
    child_processes := cpd.child_processes ++ [{ started := false }] }

theorem allUnstarted_append_unstarted (l : List ProcessHandle)
    (h : ∀ p ∈ l, p.started = false) :
    ∀ p ∈ l ++ [({ started := false } : ProcessHandle)], p.started = false := by
  intro p hp
  rcases List.mem_append.mp hp with h1 | h1
  · exact h p h1
  · rcases List.mem_singleton.mp h1 with rfl
    rfl

theorem registerMany_spec (flags : List Bool) :
    ∀ cpd : CPD,
      (∀ p ∈ (registerMany cpd flags).2.1,
          cpd.next_free_port ≤ p ∧ p < (registerMany cpd flags).1.next_free_port) ∧
      cpd.next_free_port ≤ (registerMany cpd flags).1.next_free_port ∧
      (registerMany cpd flags).2.1.Pairwise (· < ·) ∧
      (allUnstarted cpd → allUnstarted (registerMany cpd flags).1) := by
  induction flags with
  | nil =>
    intro cpd
    refine ⟨?_, le_rfl, ?_, fun h => h⟩
    · intro p hp
      exact absurd hp (List.not_mem_nil p)
    · exact List.Pairwise.nil
  | cons f rest ih =>
    intro cpd
    cases f with
    | false =>
      have hstep : registerMany cpd (false :: rest) =
          registerMany
            { cpd with child_processes :=
                cpd.child_processes ++ [{ started := false }] } rest := by
        simp [registerMany, register_process_with_port]
      obtain ⟨hb, hm, hp, hu⟩ :=
        ih { cpd with child_processes := cpd.child_processes ++ [{ started := false }] }
      rw [hstep]
      exact ⟨hb, hm, hp, fun h => hu (allUnstarted_append_unstarted _ h)⟩
    | true =>
      by_cases hgt : cpd.next_free_port > cpd.max_port
      · have hstep : registerMany cpd (true :: rest) = (cpd, [], false) := by
          simp [registerMany, register_process_with_port, hgt]
        rw [hstep]
        refine ⟨?_, le_rfl, List.Pairwise.nil, fun h => h⟩
        intro p hp
        exact absurd hp (List.not_mem_nil p)
      · set cpd₁ : CPD :=
          { next_free_port := cpd.next_free_port + 1,
            max_port := cpd.max_port,
            child_processes := cpd.child_processes ++ [{ started := false }] }
          with hcpd₁
        have hstep : registerMany cpd (true :: rest) =
            ((registerMany cpd₁ rest).1,
             cpd.next_free_port :: (registerMany cpd₁ rest).2.1,
             (registerMany cpd₁ rest).2.2) := by
          simp [registerMany, register_process_with_port, hgt, hcpd₁]
        obtain ⟨hb, hm, hp, hu⟩ := ih cpd₁
        have hd : cpd₁.next_free_port = cpd.next_free_port + 1 := rfl
        rw [hstep]
        dsimp only
        refine ⟨?_, by omega, ?_, ?_⟩
        · intro p hp'
          rcases List.mem_cons.mp hp' with rfl | hmem
          · exact ⟨le_rfl, by omega⟩
          · have := hb p hmem
            exact ⟨by omega, this.2⟩
        · refine List.Pairwise.cons ?_ hp
          intro p hmem
          have := hb p hmem
          omega
        · intro h
          exact hu (allUnstarted_append_unstarted _ h)

/-- Claim C6: from any state of the allocator in which no child process has
been started, the ports returned by an arbitrary sequence of allocations are
strictly increasing, hence pairwise distinct; whenever the next free port
equals the maximum port, a port-needing allocation succeeds and returns
exactly `max_port` and the immediately following port-needing allocation
fails with an error; and an allocation failure happens while every
registered process is still unstarted (processes are only started after the
whole registration phase succeeds). -/
theorem port_allocation_bounds (cpd : CPD) (flags : List Bool)
    (hun : allUnstarted cpd) :
    (cpd.next_free_port = cpd.max_port →
      ∃ cpd₂ : CPD,
        register_process_with_port true cpd = Except.ok (cpd₂, some cpd.max_port) ∧
        allUnstarted cpd₂ ∧
        ∃ msg, register_process_with_port true cpd₂ = Except.error msg) ∧
    ((mainSetup cpd flags).2 = false → allUnstarted (mainSetup cpd flags).1) ∧
    (registerMany cpd flags).2.1.Pairwise (· < ·) ∧
    (registerMany cpd flags).2.1.Nodup := by
  obtain ⟨hb, hm, hp, hu⟩ := registerMany_spec flags cpd
  refine ⟨fun hmax => ?_, ?_, hp, hp.imp (fun h => ne_of_lt h)⟩
  · refine ⟨pushPort cpd, ?_, ?_, ?_⟩
    · have hng : ¬ cpd.next_free_port > cpd.max_port := by omega
      simp [register_process_with_port, pushPort, hng, hmax]
    · exact allUnstarted_append_unstarted _ hun
    · refine ⟨"No more ports available, exceeded maximum allowed port number.", ?_⟩
      have hgt : (pushPort cpd).next_free_port > (pushPort cpd).max_port := by
        simp only [pushPort]
        omega
      simp [register_process_with_port, hgt]
  · intro hfail
    unfold mainSetup at hfail ⊢
    by_cases hr : (registerMany cpd flags).2.2
    · simp [hr] at hfail
    · simp only [hr, if_false, Bool.false_eq_true]
      exact hu hun

theorem port_allocation_bounds_witness :
    (((13399 : ℕ) = 13399 →
      ∃ cpd₂ : CPD,
        register_process_with_port true
            { next_free_port := 13399, max_port := 13399, child_processes := [] } =
          Except.ok (cpd₂, some 13399) ∧
        allUnstarted cpd₂ ∧
        ∃ msg, register_process_with_port true cpd₂ = Except.error msg) ∧
     ((mainSetup { next_free_port := 13399, max_port := 13399, child_processes := [] }
         [true, true]).2 = false →
       allUnstarted
         (mainSetup { next_free_port := 13399, max_port := 13399, child_processes := [] }
           [true, true]).1) ∧
     (registerMany { next_free_port := 13399, max_port := 13399, child_processes := [] }
         [true, true]).2.1.Pairwise (· < ·) ∧
     (registerMany { next_free_port := 13399, max_port := 13399, child_processes := [] }
         [true, true]).2.1.Nodup) ∧
    (((13140 : ℕ) = 13399 →
      ∃ cpd₂ : CPD,
        register_process_with_port true
            { next_free_port := 13140, max_port := 13399, child_processes := [] } =
          Except.ok (cpd₂, some 13399) ∧
        allUnstarted cpd₂ ∧
        ∃ msg, register_process_with_port true cpd₂ = Except.error msg) ∧
     ((mainSetup { next_free_port := 13140, max_port := 13399, child_processes := [] }
         [true, true, true]).2 = false →
       allUnstarted
         (mainSetup { next_free_port := 13140, max_port := 13399, child_processes := [] }
           [true, true, true]).1) ∧
     (registerMany { next_free_port := 13140, max_port := 13399, child_processes := [] }
         [true, true, true]).2.1.Pairwise (· < ·) ∧
     (registerMany { next_free_port := 13140, max_port := 13399, child_processes := [] }
         [true, true, true]).2.1.Nodup) :=
  ⟨port_allocation_bounds
      { next_free_port := 13399, max_port := 13399, child_processes := [] }
      [true, true] (by intro p hp; exact absurd hp (List.not_mem_nil p)),
   port_allocation_bounds
      { next_free_port := 13140, max_port := 13399, child_processes := [] }
      [true, true, true] (by intro p hp; exact absurd hp (List.not_mem_nil p))⟩

end Trading
